import Mathlib

/-!
Shallow embedding of the LAS-to-OSDU record conversion core of the
repository (src/utils/models.py, src/utils/las_loader.py,
src/utils/record_mapper.py, src/utils/service.py).

Python exceptions are modelled by the `PyError` sum; fallible Python code
becomes `Except PyError α`.  The third-party `lasio` library is external to
the repository: a parsed `lasio.LASFile` is modelled by the `LASFile`
structure below (the well section with its optional `WELL` and `UWI` header
items, and the ordered curves section), and the call `lasio.read(text)` is
modelled as an oracle argument of type `Except PyError LASFile` handed to
the service.  Python attribute access on a missing section item
(`las.well.WELL` when no WELL item exists) raises `AttributeError`, which
the model makes explicit.  Messages reproduce the source strings, with
Python single quotes written via the `\x27` escape.
-/

/-- Python exceptions relevant to the conversion core.  `valueError` covers
both roles the spec calls ValidationError and ConfigError (the source raises
`ValueError` for both, distinguished only by message); `fileValidationError`
is the custom exception of src/utils/models.py; `otherError` stands for a
generic `Exception`. -/
inductive PyError where
  | valueError (msg : String)
  | typeError (msg : String)
  | fileValidationError (msg : String)
  | attributeError (msg : String)
  | otherError (msg : String)
deriving DecidableEq, Repr

/-- Python `str(e)` for the exceptions above: the carried message. -/
def PyError.message : PyError → String
  | .valueError m => m
  | .typeError m => m
  | .fileValidationError m => m
  | .attributeError m => m
  | .otherError m => m

/-- A LAS header item; only its `.value` is read by the core. -/
structure HeaderItem where
  value : String
deriving DecidableEq, Repr

/-- The well section of a parsed LAS file.  `none` models the mnemonic being
absent from the section (attribute access then raises AttributeError). -/
structure WellSection where
  WELL : Option HeaderItem
  UWI : Option HeaderItem
deriving DecidableEq, Repr

/-- One entry of the curves section of a parsed LAS file. -/
structure CurveItem where
  mnemonic : String
  unit : String
deriving DecidableEq, Repr

/-- A parsed `lasio.LASFile`, restricted to the parts the core reads. -/
structure LASFile where
  well : WellSection
  curves : List CurveItem
deriving DecidableEq, Repr

/-- Python attribute access `las.well.WELL.value`: raises `AttributeError`
when the well section has no WELL item. -/
def LASFile.wellWELLvalue (las : LASFile) : Except PyError String :=
  match las.well.WELL with
  | some item => .ok item.value
  | none => .error (.attributeError "SectionItems object has no attribute WELL")

/-- The raw config mapping handed to `Configuration.__init__`, restricted to
the six keys the constructor reads via `dict.get` (absent key = `none`). -/
structure ConfigData where
  data_default_viewers : Option (List String)
  data_default_owners : Option (List String)
  legal_tags : Option (List String)
  legal_relevant_data_countries : Option (List String)
  legal_status : Option String
  data_partition_id : Option String
deriving DecidableEq, Repr

/-- src/utils/models.py `Configuration`: six optional fields. -/
structure Configuration where
  data_default_viewers : Option (List String)
  data_default_owners : Option (List String)
  legal_tags : Option (List String)
  legal_relevant_data_countries : Option (List String)
  legal_status : Option String
  data_partition_id : Option String
deriving DecidableEq, Repr

/-- `Configuration.__init__`: copies the six `.get` results. -/
def Configuration.init (config_data : ConfigData) : Configuration :=
  { data_default_viewers := config_data.data_default_viewers
    data_default_owners := config_data.data_default_owners
    legal_tags := config_data.legal_tags
    legal_relevant_data_countries := config_data.legal_relevant_data_countries
    legal_status := config_data.legal_status
    data_partition_id := config_data.data_partition_id }

/-- The ACL block `{"viewers": ..., "owners": ...}`. -/
structure Acl where
  viewers : List String
  owners : List String
deriving DecidableEq, Repr

/-- The Legal block. -/
structure Legal where
  legaltags : List String
  otherRelevantDataCountries : List String
  status : String
deriving DecidableEq, Repr

/-- One entry of the NameAliases list. -/
structure NameAlias where
  AliasName : String
  AliasNameTypeID : String
deriving DecidableEq, Repr

/-- The `data` block of a Wellbore record. -/
structure WellboreData where
  FacilityName : String
  NameAliases : List NameAlias
deriving DecidableEq, Repr

/-- One entry of the Curves list of a WellLog record. -/
structure Curve where
  CurveID : String
  CurveUnit : String
  Mnemonic : String
deriving DecidableEq, Repr

/-- The `data` block of a WellLog record. -/
structure WellLogData where
  ReferenceCurveID : String
  Curves : List Curve
  WellboreID : String
deriving DecidableEq, Repr

/-- The `data` field of a `Record` (a dict in Python; one of the two shapes
the mapper actually constructs). -/
inductive RecordData where
  | wellbore (d : WellboreData)
  | wellLog (d : WellLogData)
deriving DecidableEq, Repr

/-- src/utils/models.py `Record` dataclass (id defaults to `None`). -/
structure Record where
  kind : String
  acl : Acl
  legal : Legal
  data : RecordData
  id : Option String := none
deriving DecidableEq, Repr

/-! ### urllib.parse.quote

`urllib.parse.quote(s, safe="")` UTF-8-encodes the string and
percent-encodes every byte that is not an ASCII letter, digit, or one of
`_ . - ~`, using uppercase hex digits. -/

/-- Uppercase hex digit, as `urllib.parse.quote` emits. -/
def hexUpper (n : Nat) : Char :=
  if n < 10 then Char.ofNat (48 + n) else Char.ofNat (55 + n)

/-- The bytes `urllib.parse.quote` never encodes (Python `ALWAYS_SAFE`
with `safe=""`): ASCII alphanumerics and `_ . - ~`. -/
def alwaysSafeByte (b : Nat) : Bool :=
  (48 ≤ b && b ≤ 57) || (65 ≤ b && b ≤ 90) || (97 ≤ b && b ≤ 122) ||
    b == 95 || b == 46 || b == 45 || b == 126

/-- UTF-8 encoding of one code point (Python `str.encode("utf-8")`). -/
def utf8ByteList (c : Char) : List Nat :=
  let n := c.toNat
  if n < 128 then [n]
  else if n < 2048 then [192 + n / 64, 128 + n % 64]
  else if n < 65536 then [224 + n / 4096, 128 + (n / 64) % 64, 128 + n % 64]
  else [240 + n / 262144, 128 + (n / 4096) % 64, 128 + (n / 64) % 64, 128 + n % 64]

/-- Percent-encoding of one byte: kept verbatim if always-safe, else `%XX`. -/
def quoteByte (b : Nat) : List Char :=
  if alwaysSafeByte b then [Char.ofNat b] else ['%', hexUpper (b / 16), hexUpper (b % 16)]

/-- `urllib.parse.quote(s, safe="")`. -/
def urllib_parse_quote (s : String) : String :=
  String.mk (s.data.flatMap fun c => (utf8ByteList c).flatMap quoteByte)

/-- Python `s.replace(" ", "-")` (single-character pattern, so a char map). -/
def pyReplaceSpaceWithDash (s : String) : String :=
  String.mk (s.data.map fun c => if c = ' ' then '-' else c)

/-- The ASCII whitespace stripped by Python `str.strip()`. -/
def pyIsSpace (c : Char) : Bool :=
  c == ' ' || c == '\t' || c == '\n' || c == '\r' || c == '\x0b' || c == '\x0c'

/-- Python `s.strip()`: drop leading and trailing whitespace. -/
def pyStrip (s : String) : String :=
  String.mk (((s.data.dropWhile pyIsSpace).reverse.dropWhile pyIsSpace).reverse)

/-! ### AttributeBuilder (src/utils/record_mapper.py) -/

namespace AttributeBuilder

/-- `AttributeBuilder.build_acl`: raises `ValueError` when either ACL config
field is `None` (the role the spec calls ConfigError). -/
def build_acl (config : Configuration) : Except PyError Acl :=
  match config.data_default_viewers, config.data_default_owners with
  | some viewers, some owners => .ok { viewers := viewers, owners := owners }
  | _, _ =>
    .error (.valueError "Config missing \x27data_default_viewers\x27 or \x27data_default_owners\x27")

/-- `AttributeBuilder.build_legal`: raises `ValueError` when any of the three
legal config fields is `None`. -/
def build_legal (config : Configuration) : Except PyError Legal :=
  match config.legal_tags, config.legal_relevant_data_countries, config.legal_status with
  | some tags, some countries, some status =>
    .ok { legaltags := tags, otherRelevantDataCountries := countries, status := status }
  | _, _, _ =>
    .error (.valueError
      "Config missing \x27legal_tags\x27, \x27legal_relevant_data_countries\x27, or \x27legal_status\x27")

/-- `AttributeBuilder._get_uwi`: returns `las.well.UWI.value` when the item
exists and the value is truthy and has a truthy `.strip()`, else `None`
(`AttributeError` on a missing UWI item is caught). -/
def get_uwi (las : LASFile) : Option String :=
  match las.well.UWI with
  | none => none
  | some item => if item.value ≠ "" ∧ pyStrip item.value ≠ "" then some item.value else none

/-- `AttributeBuilder._build_name_aliases`: empty list for a falsy `uwi`
(`None` or `""`); otherwise requires `data_partition_id` and returns the one
alias entry. -/
def build_name_aliases (uwi : Option String) (config : Configuration) :
    Except PyError (List NameAlias) :=
  match uwi with
  | none => .ok []
  | some s =>
    if s = "" then .ok []
    else
      match config.data_partition_id with
      | none => .error (.valueError "Config missing \x27data_partition_id\x27")
      | some pid =>
        .ok [{ AliasName := s,
               AliasNameTypeID := pid ++ ":reference-data--AliasNameType:UniqueIdentifier:" }]

/-- `AttributeBuilder.build_wellbore_data`: reads `las.well.WELL.value`
(AttributeError when absent), extracts the UWI, builds the aliases. -/
def build_wellbore_data (las : LASFile) (config : Configuration) :
    Except PyError WellboreData := do
  let well_name ← las.wellWELLvalue
  let uwi := get_uwi las
  let name_aliases ← build_name_aliases uwi config
  .ok { FacilityName := well_name, NameAliases := name_aliases }

/-- The encoded unit of one curve: `urllib.parse.quote(curve.unit,
safe="").replace(" ", "-")`, with an empty result replaced by `UNITLESS`. -/
def encodedUnit (u : String) : String :=
  let unit := pyReplaceSpaceWithDash (urllib_parse_quote u)
  if unit = "" then "UNITLESS" else unit

/-- The dict appended for one curve by `AttributeBuilder._build_curves`. -/
def curveEntry (data_partition_id : String) (curve : CurveItem) : Curve :=
  { CurveID := curve.mnemonic,
    CurveUnit := data_partition_id ++ ":reference-data--UnitOfMeasure:" ++
      encodedUnit curve.unit ++ ":",
    Mnemonic := curve.mnemonic }

/-- `AttributeBuilder._build_curves`: raises `ValueError` when
`data_partition_id` is `None`, else maps over the curves in document order.
(The source's `except AttributeError: return []` guard cannot fire here:
`las.curves` always exists on a parsed `LASFile`, so it is not modelled.) -/
def build_curves (las : LASFile) (data_partition_id : Option String) :
    Except PyError (List Curve) :=
  match data_partition_id with
  | none => .error (.valueError "Config missing \x27data_partition_id\x27")
  | some pid => .ok (las.curves.map (curveEntry pid))

/-- `AttributeBuilder.build_well_log_data`: checks, in source order, a falsy
`wellbore_id`, then the reference curve (curves nonempty with a truthy first
mnemonic), then `data_partition_id`, and assembles the WellLog data block. -/
def build_well_log_data (las : LASFile) (config : Configuration)
    (wellbore_id : String) : Except PyError WellLogData :=
  if wellbore_id = "" then .error (.valueError "Wellbore ID is required")
  else
    match las.curves with
    | [] => .error (.valueError "Failed to extract reference curve ID from LAS file.")
    | c0 :: _ =>
      if c0.mnemonic = "" then
        .error (.valueError "Failed to extract reference curve ID from LAS file.")
      else
        match config.data_partition_id with
        | none =>
          .error (.valueError "Config missing \x27data_partition_id\x27 for building curves")
        | some pid => do
          let curves ← build_curves las (some pid)
          .ok { ReferenceCurveID := c0.mnemonic,
                Curves := curves,
                WellboreID := pid ++ ":master-data--Wellbore:" ++ wellbore_id ++ ":" }

end AttributeBuilder

/-! ### LasToRecordMapper (src/utils/record_mapper.py) -/

/-- A Python value handed to `LasToRecordMapper.__init__`: either a parsed
`lasio.LASFile` or something else (failing the `isinstance` check). -/
inductive PyValue where
  | lasFile (las : LASFile)
  | other (desc : String)
deriving DecidableEq, Repr

/-- The constructed mapper: stores the LAS file and the configuration. -/
structure LasToRecordMapper where
  las : LASFile
  config : Configuration
deriving DecidableEq, Repr

/-- `LasToRecordMapper.__init__`: `TypeError` unless the input is a
`lasio.LASFile`; no configuration validation happens here. -/
def LasToRecordMapper.init (las : PyValue) (configuration : Configuration) :
    Except PyError LasToRecordMapper :=
  match las with
  | .lasFile l => .ok { las := l, config := configuration }
  | .other _ => .error (.typeError "Please provide a LAS data object as input.")

/-- `LasToRecordMapper.map_to_wellbore_record`: ACL, then Legal, then the
wellbore data block; the record id is left at its `None` default. -/
def LasToRecordMapper.map_to_wellbore_record (m : LasToRecordMapper) :
    Except PyError Record := do
  let kind := "osdu:wks:master-data--Wellbore:1.0.0"
  let acl ← AttributeBuilder.build_acl m.config
  let legal ← AttributeBuilder.build_legal m.config
  let data ← AttributeBuilder.build_wellbore_data m.las m.config
  .ok { kind := kind, acl := acl, legal := legal, data := .wellbore data }

/-- `LasToRecordMapper.map_to_well_log_record`: ACL, then Legal, then the
well-log data block; the record id is the derived `"<wellbore_id>-log"`. -/
def LasToRecordMapper.map_to_well_log_record (m : LasToRecordMapper)
    (wellbore_id : String) : Except PyError Record := do
  let kind := "osdu:wks:work-product-component--WellLog:1.0.0"
  let acl ← AttributeBuilder.build_acl m.config
  let legal ← AttributeBuilder.build_legal m.config
  let data ← AttributeBuilder.build_well_log_data m.las m.config wellbore_id
  let log_id := wellbore_id ++ "-log"
  .ok { kind := kind, acl := acl, legal := legal, data := .wellLog data, id := some log_id }

/-! ### LasParser (src/utils/las_loader.py)

`lasio.read` is external to the repository; its outcome on the given text is
passed in as an `Except PyError LASFile` oracle value. -/

/-- `LasParser.validate_las_file`: reads `las.well.WELL.value` (which raises
`AttributeError` when the WELL item is absent); a falsy or `" "` value only
logs a warning — the function never raises for a blank well name. -/
def LasParser.validate_las_file (las : LASFile) : Except PyError Unit := do
  let well_name ← las.wellWELLvalue
  if well_name = "" ∨ well_name = " " then
    .ok ()   -- logger.warning, no error raised
  else
    .ok ()

/-- `LasParser.load_las_file`: runs `lasio.read` (the oracle argument) and
then validation, returning the parsed file. -/
def LasParser.load_las_file (lasioRead : Except PyError LASFile) :
    Except PyError LASFile := do
  let las ← lasioRead
  LasParser.validate_las_file las
  .ok las

/-! ### Conversion service (src/utils/service.py) -/

/-- The dict returned by `convert_las_to_osdu_records`. -/
structure ConvertResult where
  wellbore_record : Record
  welllog_record : Record
deriving DecidableEq, Repr

/-- The `try` block of `convert_las_to_osdu_records`: build the
Configuration, load the LAS, construct the mapper, map the Wellbore record
and overwrite its id with `wellbore_id`, map the WellLog record. -/
def convert_body (lasioRead : Except PyError LASFile) (wellbore_id : String)
    (config_content : ConfigData) : Except PyError ConvertResult := do
  let config := Configuration.init config_content
  let las_data ← LasParser.load_las_file lasioRead
  let mapper ← LasToRecordMapper.init (.lasFile las_data) config
  let wellbore_record ← mapper.map_to_wellbore_record
  let wellbore_record := { wellbore_record with id := some wellbore_id }
  let welllog_record ← mapper.map_to_well_log_record wellbore_id
  .ok { wellbore_record := wellbore_record, welllog_record := welllog_record }

/-- The exceptions re-raised unchanged by the service's first `except`
clause: `(ValueError, TypeError, FileValidationError)`. -/
def PyError.passthrough : PyError → Bool
  | .valueError _ => true
  | .typeError _ => true
  | .fileValidationError _ => true
  | _ => false

/-- `convert_las_to_osdu_records`: the `try` body with the two `except`
clauses — `ValueError`/`TypeError`/`FileValidationError` re-raised
unchanged, anything else wrapped into a generic `Exception` carrying the
original message. -/
def convert_las_to_osdu_records (lasioRead : Except PyError LASFile)
    (wellbore_id : String) (config_content : ConfigData) :
    Except PyError ConvertResult :=
  match convert_body lasioRead wellbore_id config_content with
  | .ok result => .ok result
  | .error e =>
    if e.passthrough then .error e
    else .error (.otherError ("An unexpected error occurred: " ++ e.message))

/-! ### Reordered sub-block execution (for the order-independence claim)

`map_to_wellbore_record` / `map_to_well_log_record` run three independent
sub-builders (ACL, Legal, data).  The variants below run the same three
sub-builders in an arbitrary order `(i, j, k)` and then assemble the same
record from the (pure) sub-builder results, modelling a reordering of the
three calls. -/

/-- Run one of the three wellbore sub-builders for its outcome only. -/
def wellboreBlockRun (m : LasToRecordMapper) : Fin 3 → Except PyError Unit
  | ⟨0, _⟩ => do let _ ← AttributeBuilder.build_acl m.config; .ok ()
  | ⟨1, _⟩ => do let _ ← AttributeBuilder.build_legal m.config; .ok ()
  | ⟨2, _⟩ => do let _ ← AttributeBuilder.build_wellbore_data m.las m.config; .ok ()

/-- `map_to_wellbore_record` with the three sub-builder calls reordered to
`(i, j, k)`. -/
def map_to_wellbore_record_ordered (m : LasToRecordMapper) (i j k : Fin 3) :
    Except PyError Record := do
  let _ ← wellboreBlockRun m i
  let _ ← wellboreBlockRun m j
  let _ ← wellboreBlockRun m k
  match AttributeBuilder.build_acl m.config, AttributeBuilder.build_legal m.config,
      AttributeBuilder.build_wellbore_data m.las m.config with
  | .ok acl, .ok legal, .ok data =>
    .ok { kind := "osdu:wks:master-data--Wellbore:1.0.0", acl := acl, legal := legal,
          data := .wellbore data }
  | .error e, _, _ => .error e
  | _, .error e, _ => .error e
  | _, _, .error e => .error e

/-- Run one of the three well-log sub-builders for its outcome only. -/
def wellLogBlockRun (m : LasToRecordMapper) (wellbore_id : String) : Fin 3 → Except PyError Unit
  | ⟨0, _⟩ => do let _ ← AttributeBuilder.build_acl m.config; .ok ()
  | ⟨1, _⟩ => do let _ ← AttributeBuilder.build_legal m.config; .ok ()
  | ⟨2, _⟩ => do let _ ← AttributeBuilder.build_well_log_data m.las m.config wellbore_id; .ok ()

/-- `map_to_well_log_record` with the three sub-builder calls reordered to
`(i, j, k)`. -/
def map_to_well_log_record_ordered (m : LasToRecordMapper) (wellbore_id : String)
    (i j k : Fin 3) : Except PyError Record := do
  let _ ← wellLogBlockRun m wellbore_id i
  let _ ← wellLogBlockRun m wellbore_id j
  let _ ← wellLogBlockRun m wellbore_id k
  match AttributeBuilder.build_acl m.config, AttributeBuilder.build_legal m.config,
      AttributeBuilder.build_well_log_data m.las m.config wellbore_id with
  | .ok acl, .ok legal, .ok data =>
    .ok { kind := "osdu:wks:work-product-component--WellLog:1.0.0", acl := acl, legal := legal,
          data := .wellLog data, id := some (wellbore_id ++ "-log") }
  | .error e, _, _ => .error e
  | _, .error e, _ => .error e
  | _, _, .error e => .error e

/-! ### Concrete example inputs (used by counterexamples and witnesses) -/

/-- The spec scenario LAS file: `WELL = "Well-A"`, `UWI = "42-001-00001"`,
curves `[{DEPT, M}, {GR, ""}]`. -/
def lasWellA : LASFile :=
  { well := { WELL := some { value := "Well-A" }, UWI := some { value := "42-001-00001" } },
    curves := [{ mnemonic := "DEPT", unit := "M" }, { mnemonic := "GR", unit := "" }] }

/-- A parsed document whose well section has no WELL item. -/
def lasNoWELL : LASFile :=
  { well := { WELL := none, UWI := none },
    curves := [{ mnemonic := "DEPT", unit := "M" }] }

/-- A parsed document with a blank WELL value. -/
def lasBlankWELL : LASFile :=
  { well := { WELL := some { value := "" }, UWI := none },
    curves := [{ mnemonic := "DEPT", unit := "M" }] }

/-- A parsed document with one curve whose unit contains a space. -/
def lasSpaceUnit : LASFile :=
  { well := { WELL := some { value := "Well-A" }, UWI := none },
    curves := [{ mnemonic := "DEPT", unit := "M S" }] }

/-- A parsed document with zero curves. -/
def lasNoCurves : LASFile :=
  { well := { WELL := some { value := "Well-A" }, UWI := none }, curves := [] }

/-- A parsed document whose first curve has a blank mnemonic. -/
def lasBlankMnemonic : LASFile :=
  { well := { WELL := some { value := "Well-A" }, UWI := none },
    curves := [{ mnemonic := "", unit := "M" }] }

/-- A complete configuration payload (all six keys present, partition
`"osdu"`). -/
def cfgFullData : ConfigData :=
  { data_default_viewers := some ["viewers@osdu"],
    data_default_owners := some ["owners@osdu"],
    legal_tags := some ["osdu-public-usa-dataset"],
    legal_relevant_data_countries := some ["US"],
    legal_status := some "compliant",
    data_partition_id := some "osdu" }

/-- A configuration with all six fields unset. -/
def cfgAllUnset : Configuration :=
  { data_default_viewers := none, data_default_owners := none, legal_tags := none,
    legal_relevant_data_countries := none, legal_status := none, data_partition_id := none }

/-- A configuration payload with all six keys absent. -/
def cfgAllUnsetData : ConfigData :=
  { data_default_viewers := none, data_default_owners := none, legal_tags := none,
    legal_relevant_data_countries := none, legal_status := none, data_partition_id := none }

/-- The result the service produces for `lasWellA`, wellbore id `"wb-1"`,
and `cfgFullData` (the two records of the spec scenario). -/
def convResultWellA : ConvertResult :=
  { wellbore_record :=
      { kind := "osdu:wks:master-data--Wellbore:1.0.0",
        acl := { viewers := ["viewers@osdu"], owners := ["owners@osdu"] },
        legal := { legaltags := ["osdu-public-usa-dataset"],
                   otherRelevantDataCountries := ["US"], status := "compliant" },
        data := .wellbore
          { FacilityName := "Well-A",
            NameAliases :=
              [⟨"42-001-00001", "osdu:reference-data--AliasNameType:UniqueIdentifier:"⟩] },
        id := some "wb-1" },
    welllog_record :=
      { kind := "osdu:wks:work-product-component--WellLog:1.0.0",
        acl := { viewers := ["viewers@osdu"], owners := ["owners@osdu"] },
        legal := { legaltags := ["osdu-public-usa-dataset"],
                   otherRelevantDataCountries := ["US"], status := "compliant" },
        data := .wellLog
          { ReferenceCurveID := "DEPT",
            Curves := [⟨"DEPT", "osdu:reference-data--UnitOfMeasure:M:", "DEPT"⟩,
                       ⟨"GR", "osdu:reference-data--UnitOfMeasure:UNITLESS:", "GR"⟩],
            WellboreID := "osdu:master-data--Wellbore:wb-1:" },
        id := some "wb-1-log" } }

/-- A placeholder record pair (used only to instantiate binders). -/
def convResultDummy : ConvertResult :=
  { wellbore_record :=
      { kind := "", acl := { viewers := [], owners := [] },
        legal := { legaltags := [], otherRelevantDataCountries := [], status := "" },
        data := .wellbore { FacilityName := "", NameAliases := [] }, id := none },
    welllog_record :=
      { kind := "", acl := { viewers := [], owners := [] },
        legal := { legaltags := [], otherRelevantDataCountries := [], status := "" },
        data := .wellbore { FacilityName := "", NameAliases := [] }, id := none } }

deriving instance DecidableEq for Except

/-! ### Helper lemmas -/

@[simp]
theorem except_bind_ok {ε α β : Type} (a : α) (f : α → Except ε β) :
    (Except.ok a : Except ε α) >>= f = f a := rfl

@[simp]
theorem except_bind_error {ε α β : Type} (e : ε) (f : α → Except ε β) :
    (Except.error e : Except ε α) >>= f = .error e := rfl

theorem build_name_aliases_ok_of_partition (uwi : Option String) (cfg : Configuration)
    (p : String) (hp : cfg.data_partition_id = some p) :
    ∃ l, AttributeBuilder.build_name_aliases uwi cfg = .ok l := by
  cases uwi with
  | none => exact ⟨[], rfl⟩
  | some s =>
    by_cases hs : s = ""
    · exact ⟨[], by simp [AttributeBuilder.build_name_aliases, hs]⟩
    · refine ⟨[⟨s, p ++ ":reference-data--AliasNameType:UniqueIdentifier:"⟩], ?_⟩
      simp [AttributeBuilder.build_name_aliases, hs, hp]

theorem build_wellbore_data_ok_of_partition (las : LASFile) (cfg : Configuration)
    (item : HeaderItem) (p : String) (hW : las.well.WELL = some item)
    (hp : cfg.data_partition_id = some p) :
    ∃ d, AttributeBuilder.build_wellbore_data las cfg = .ok d ∧ d.FacilityName = item.value := by
  obtain ⟨l, hl⟩ := build_name_aliases_ok_of_partition (AttributeBuilder.get_uwi las) cfg p hp
  refine ⟨{ FacilityName := item.value, NameAliases := l }, ?_, rfl⟩
  simp [AttributeBuilder.build_wellbore_data, LASFile.wellWELLvalue, hW, hl]

/-! ### Claims -/

/-- C10.  `LasToRecordMapper.__init__` rejects a non-`LASFile` input with a
`TypeError` before any record building; for every parsed LAS document and
every configuration (the all-unset configuration included) construction of
the mapper itself succeeds — configuration validation is deferred to the
builder calls, as witnessed by `build_acl` failing on the very
configuration the constructor accepted. -/
theorem claim_C10_mapper_init (d : String) (las : LASFile) (cfg : Configuration) :
    LasToRecordMapper.init (.other d) cfg =
      .error (.typeError "Please provide a LAS data object as input.") ∧
    LasToRecordMapper.init (.lasFile las) cfg = .ok { las := las, config := cfg } ∧
    LasToRecordMapper.init (.lasFile las) cfgAllUnset =
      .ok { las := las, config := cfgAllUnset } ∧
    AttributeBuilder.build_acl cfgAllUnset =
      .error (.valueError "Config missing \x27data_default_viewers\x27 or \x27data_default_owners\x27") := by
  refine ⟨rfl, rfl, rfl, rfl⟩

/-- C4.  Whenever `data_default_viewers` or `data_default_owners` is unset —
regardless of every other configuration field — `build_acl` fails with the
config `ValueError` (the spec's ConfigError), and so does every
record-mapping call, both the Wellbore and the WellLog one, since each
begins with `build_acl`. -/
theorem claim_C4_acl_config_error (cfg : Configuration) (las : LASFile) (wid : String)
    (h : cfg.data_default_viewers = none ∨ cfg.data_default_owners = none) :
    AttributeBuilder.build_acl cfg =
      .error (.valueError "Config missing \x27data_default_viewers\x27 or \x27data_default_owners\x27") ∧
    (LasToRecordMapper.mk las cfg).map_to_wellbore_record =
      .error (.valueError "Config missing \x27data_default_viewers\x27 or \x27data_default_owners\x27") ∧
    (LasToRecordMapper.mk las cfg).map_to_well_log_record wid =
      .error (.valueError "Config missing \x27data_default_viewers\x27 or \x27data_default_owners\x27") := by
  have hacl : AttributeBuilder.build_acl cfg =
      .error (.valueError "Config missing \x27data_default_viewers\x27 or \x27data_default_owners\x27") := by
    rcases h with h | h <;>
      cases hv : cfg.data_default_viewers <;> cases ho : cfg.data_default_owners <;>
        simp_all [AttributeBuilder.build_acl]
  exact ⟨hacl, by simp [LasToRecordMapper.map_to_wellbore_record, hacl],
    by simp [LasToRecordMapper.map_to_well_log_record, hacl]⟩

/-- C4 witness: a configuration with both ACL fields absent and everything
else complete still fails every ACL-touching call with the config error. -/
theorem claim_C4_witness :
    AttributeBuilder.build_acl
        { data_default_viewers := none, data_default_owners := some ["o"],
          legal_tags := some ["t"], legal_relevant_data_countries := some ["US"],
          legal_status := some "compliant", data_partition_id := some "osdu" } =
      .error (.valueError "Config missing \x27data_default_viewers\x27 or \x27data_default_owners\x27") ∧
    (LasToRecordMapper.mk lasWellA
        { data_default_viewers := none, data_default_owners := some ["o"],
          legal_tags := some ["t"], legal_relevant_data_countries := some ["US"],
          legal_status := some "compliant", data_partition_id := some "osdu" }).map_to_wellbore_record =
      .error (.valueError "Config missing \x27data_default_viewers\x27 or \x27data_default_owners\x27") ∧
    (LasToRecordMapper.mk lasWellA
        { data_default_viewers := none, data_default_owners := some ["o"],
          legal_tags := some ["t"], legal_relevant_data_countries := some ["US"],
          legal_status := some "compliant", data_partition_id := some "osdu" }).map_to_well_log_record "wb-1" =
      .error (.valueError "Config missing \x27data_default_viewers\x27 or \x27data_default_owners\x27") :=
  claim_C4_acl_config_error _ lasWellA "wb-1" (Or.inl rfl)

/-- C5.  `_build_name_aliases` with an unset UWI returns the empty list and
raises nothing, even on a configuration whose `data_partition_id` is unset;
with a set (truthy) UWI it demands `data_partition_id` — failing with the
config `ValueError` when it is unset — and otherwise returns exactly one
alias whose AliasNameTypeID is
`"<partitionId>:reference-data--AliasNameType:UniqueIdentifier:"`. -/
theorem claim_C5_name_aliases (cfgNone cfgSome : Configuration) (s p : String)
    (hs : s ≠ "") (hnone : cfgNone.data_partition_id = none)
    (hsome : cfgSome.data_partition_id = some p) :
    AttributeBuilder.build_name_aliases none cfgNone = .ok [] ∧
    AttributeBuilder.build_name_aliases (some s) cfgNone =
      .error (.valueError "Config missing \x27data_partition_id\x27") ∧
    AttributeBuilder.build_name_aliases (some s) cfgSome =
      .ok [{ AliasName := s,
             AliasNameTypeID := p ++ ":reference-data--AliasNameType:UniqueIdentifier:" }] := by
  refine ⟨rfl, ?_, ?_⟩ <;> simp [AttributeBuilder.build_name_aliases, hs, hnone, hsome]

/-- C5 witness: UWI `"42-001-00001"` against the all-unset configuration and
against a configuration with partition `"osdu"`. -/
theorem claim_C5_witness :
    AttributeBuilder.build_name_aliases none cfgAllUnset = .ok [] ∧
    AttributeBuilder.build_name_aliases (some "42-001-00001") cfgAllUnset =
      .error (.valueError "Config missing \x27data_partition_id\x27") ∧
    AttributeBuilder.build_name_aliases (some "42-001-00001")
        (Configuration.init cfgFullData) =
      .ok [{ AliasName := "42-001-00001",
             AliasNameTypeID := "osdu:reference-data--AliasNameType:UniqueIdentifier:" }] :=
  claim_C5_name_aliases cfgAllUnset (Configuration.init cfgFullData) "42-001-00001" "osdu"
    (by decide) rfl rfl

theorem char_toNat_lt_1114112 (c : Char) : c.toNat < 1114112 := by
  have h := c.valid
  rcases h with h | ⟨h1, h2⟩ <;> · show c.val.toNat < 1114112; omega

theorem utf8ByteList_lt_256 (c : Char) (b : Nat) (hb : b ∈ utf8ByteList c) : b < 256 := by
  have hc := char_toNat_lt_1114112 c
  simp only [utf8ByteList] at hb
  split_ifs at hb
  · simp only [List.mem_singleton] at hb; omega
  · simp only [List.mem_cons, List.not_mem_nil, or_false] at hb
    rcases hb with hb | hb <;> omega
  · simp only [List.mem_cons, List.not_mem_nil, or_false] at hb
    rcases hb with hb | hb | hb <;> omega
  · simp only [List.mem_cons, List.not_mem_nil, or_false] at hb
    rcases hb with hb | hb | hb | hb <;> omega

theorem hexUpper_ne_space (n : Nat) (hn : n < 16) : hexUpper n ≠ ' ' := by
  interval_cases n <;> decide

theorem quoteByte_ne_space (b : Nat) (hb : b < 256) (c : Char) (hc : c ∈ quoteByte b) :
    c ≠ ' ' := by
  simp only [quoteByte] at hc
  by_cases hsafe : alwaysSafeByte b = true
  · rw [if_pos hsafe] at hc
    simp only [List.mem_singleton] at hc
    subst hc
    have hrange : 45 ≤ b ∧ b ≤ 126 ∧ b ≠ 32 := by
      simp only [alwaysSafeByte, Bool.or_eq_true, Bool.and_eq_true, decide_eq_true_eq,
        beq_iff_eq] at hsafe
      omega
    obtain ⟨h1, h2, _⟩ := hrange
    interval_cases b <;> decide
  · rw [if_neg hsafe] at hc
    simp only [List.mem_cons, List.mem_singleton, List.not_mem_nil, or_false] at hc
    rcases hc with hc | hc | hc
    · subst hc; decide
    · subst hc; exact hexUpper_ne_space _ (by omega)
    · subst hc; exact hexUpper_ne_space _ (by omega)

theorem urllib_parse_quote_no_space (s : String) (c : Char)
    (hc : c ∈ (urllib_parse_quote s).data) : c ≠ ' ' := by
  simp only [urllib_parse_quote, List.mem_flatMap] at hc
  obtain ⟨ch, _, b, hb, hcb⟩ := hc
  exact quoteByte_ne_space b (utf8ByteList_lt_256 ch b hb) c hcb

theorem pyReplaceSpaceWithDash_quote_noop (u : String) :
    pyReplaceSpaceWithDash (urllib_parse_quote u) = urllib_parse_quote u := by
  have hgen : ∀ l : List Char, (∀ c ∈ l, c ≠ ' ') →
      l.map (fun c => if c = ' ' then '-' else c) = l := by
    intro l
    induction l with
    | nil => intro _; rfl
    | cons a t ih =>
      intro h
      simp only [List.map_cons, List.cons.injEq]
      exact ⟨by rw [if_neg (h a (List.mem_cons_self a t))],
        ih fun c hc => h c (List.mem_cons_of_mem _ hc)⟩
  have hmap : (urllib_parse_quote u).data.map (fun c => if c = ' ' then '-' else c) =
      (urllib_parse_quote u).data :=
    hgen _ (urllib_parse_quote_no_space u)
  calc pyReplaceSpaceWithDash (urllib_parse_quote u)
      = String.mk ((urllib_parse_quote u).data.map (fun c => if c = ' ' then '-' else c)) := rfl
    _ = String.mk (urllib_parse_quote u).data := by rw [hmap]
    _ = urllib_parse_quote u := rfl

/-- C2 counterexample.  The claim predicts that an encoded space sequence in
a unit becomes a hyphen, so the unit `"M S"` would give CurveUnit
`"osdu:reference-data--UnitOfMeasure:M-S:"`.  The code percent-encodes
first (`" "` becomes `"%20"`) and only then replaces literal spaces — of
which none remain — so the CurveUnit keeps `%20` and the claimed value is
refuted at this input. -/
theorem claim_C2_counterexample :
    AttributeBuilder.build_curves lasSpaceUnit (some "osdu") =
      .ok [{ CurveID := "DEPT",
             CurveUnit := "osdu:reference-data--UnitOfMeasure:M%20S:",
             Mnemonic := "DEPT" }] ∧
    AttributeBuilder.build_curves lasSpaceUnit (some "osdu") ≠
      .ok [{ CurveID := "DEPT",
             CurveUnit := "osdu:reference-data--UnitOfMeasure:M-S:",
             Mnemonic := "DEPT" }] := by
  constructor
  · decide
  · decide

/-- C2 (amended).  For every curve in document order, `_build_curves`
percent-encodes the unit with URL-component encoding rules and then replaces
literal spaces with hyphens; since percent-encoding leaves no literal space,
that replacement never changes anything (encoded spaces stay `%20`).  A
curve with an empty unit maps to the literal token UNITLESS, so its
CurveUnit is `"<partitionId>:reference-data--UnitOfMeasure:UNITLESS:"`
rather than containing a blank segment. -/
theorem claim_C2_amended_curves (u : String) (las : LASFile) (pid : String)
    (curve : CurveItem) (hu : curve.unit = "") :
    pyReplaceSpaceWithDash (urllib_parse_quote u) = urllib_parse_quote u ∧
    AttributeBuilder.encodedUnit u =
      (if urllib_parse_quote u = "" then "UNITLESS" else urllib_parse_quote u) ∧
    AttributeBuilder.build_curves las (some pid) =
      .ok (las.curves.map (AttributeBuilder.curveEntry pid)) ∧
    AttributeBuilder.curveEntry pid curve =
      { CurveID := curve.mnemonic,
        CurveUnit := pid ++ ":reference-data--UnitOfMeasure:UNITLESS:",
        Mnemonic := curve.mnemonic } := by
  refine ⟨pyReplaceSpaceWithDash_quote_noop u, ?_, rfl, ?_⟩
  · simp [AttributeBuilder.encodedUnit, pyReplaceSpaceWithDash_quote_noop u]
  · simp only [AttributeBuilder.curveEntry, hu, Curve.mk.injEq]
    refine ⟨trivial, ?_, trivial⟩
    rw [show AttributeBuilder.encodedUnit "" = "UNITLESS" from rfl,
      String.append_assoc, String.append_assoc]
    rfl

/-- C2 witness: the empty-unit curve `GR` of the spec scenario document
yields the UNITLESS CurveUnit (the amended claim applied at `u = "M S"`,
partition `"osdu"`). -/
theorem claim_C2_witness :
    pyReplaceSpaceWithDash (urllib_parse_quote "M S") = urllib_parse_quote "M S" ∧
    AttributeBuilder.encodedUnit "M S" =
      (if urllib_parse_quote "M S" = "" then "UNITLESS" else urllib_parse_quote "M S") ∧
    AttributeBuilder.build_curves lasWellA (some "osdu") =
      .ok (lasWellA.curves.map (AttributeBuilder.curveEntry "osdu")) ∧
    AttributeBuilder.curveEntry "osdu" { mnemonic := "GR", unit := "" } =
      { CurveID := "GR",
        CurveUnit := "osdu:reference-data--UnitOfMeasure:UNITLESS:",
        Mnemonic := "GR" } :=
  claim_C2_amended_curves "M S" lasWellA "osdu" { mnemonic := "GR", unit := "" } rfl

/-- C7 counterexample.  The claim covers documents whose WELL value is
"blank or absent"; for a document with the WELL item absent,
`load_las_file` does not return the parsed document — the unguarded
`las.well.WELL.value` access raises `AttributeError`. -/
theorem claim_C7_counterexample :
    LasParser.load_las_file (.ok lasNoWELL) ≠ .ok lasNoWELL ∧
    LasParser.load_las_file (.ok lasNoWELL) =
      .error (.attributeError "SectionItems object has no attribute WELL") := by
  constructor <;> decide

/-- C7 (amended).  For every parsed document whose WELL item is present —
with a blank value included — `load_las_file` logs a warning at most and
still returns the parsed document, raising no validation error; for a
document whose WELL item is absent, the unguarded attribute access raises
`AttributeError` instead of returning the document. -/
theorem claim_C7_amended_load (las las2 : LASFile) (item : HeaderItem)
    (hpresent : las.well.WELL = some item) (habsent : las2.well.WELL = none) :
    LasParser.load_las_file (.ok las) = .ok las ∧
    LasParser.load_las_file (.ok las2) =
      .error (.attributeError "SectionItems object has no attribute WELL") := by
  constructor
  · simp [LasParser.load_las_file, LasParser.validate_las_file, LASFile.wellWELLvalue, hpresent]
  · simp [LasParser.load_las_file, LasParser.validate_las_file, LASFile.wellWELLvalue, habsent]

/-- C7 witness: the blank-WELL document is returned unchanged; the
WELL-less document raises. -/
theorem claim_C7_witness :
    LasParser.load_las_file (.ok lasBlankWELL) = .ok lasBlankWELL ∧
    LasParser.load_las_file (.ok lasNoWELL) =
      .error (.attributeError "SectionItems object has no attribute WELL") :=
  claim_C7_amended_load lasBlankWELL lasNoWELL { value := "" } rfl rfl

/-- C3.  `build_well_log_data` fails with the validation `ValueError` when
the wellbore id is blank; with the reference-curve `ValueError` when the
document has zero curves or the first curve's mnemonic is blank (the first
curve — no reordering — is the reference curve); with the config
`ValueError` when `data_partition_id` is unset; and `build_wellbore_data`
ignores the curves section entirely, so on a zero-curve document it still
succeeds. -/
theorem claim_C3_well_log_data_errors (las : LASFile) (cfg : Configuration) (wid : String)
    (c0 : CurveItem) (rest : List CurveItem) (item : HeaderItem) :
    AttributeBuilder.build_well_log_data las cfg "" =
      .error (.valueError "Wellbore ID is required") ∧
    (wid ≠ "" → las.curves = [] →
      AttributeBuilder.build_well_log_data las cfg wid =
        .error (.valueError "Failed to extract reference curve ID from LAS file.")) ∧
    (wid ≠ "" → las.curves = c0 :: rest → c0.mnemonic = "" →
      AttributeBuilder.build_well_log_data las cfg wid =
        .error (.valueError "Failed to extract reference curve ID from LAS file.")) ∧
    (wid ≠ "" → las.curves = c0 :: rest → c0.mnemonic ≠ "" →
        cfg.data_partition_id = none →
      AttributeBuilder.build_well_log_data las cfg wid =
        .error (.valueError "Config missing \x27data_partition_id\x27 for building curves")) ∧
    AttributeBuilder.build_wellbore_data { well := las.well, curves := [] } cfg =
      AttributeBuilder.build_wellbore_data las cfg ∧
    (las.well.WELL = some item → AttributeBuilder.get_uwi las = none →
      AttributeBuilder.build_wellbore_data { well := las.well, curves := [] } cfg =
        .ok { FacilityName := item.value, NameAliases := [] }) := by
  refine ⟨?_, ?_, ?_, ?_, rfl, ?_⟩
  · simp [AttributeBuilder.build_well_log_data]
  · intro h1 h2
    simp [AttributeBuilder.build_well_log_data, h1, h2]
  · intro h1 h2 h3
    simp [AttributeBuilder.build_well_log_data, h1, h2, h3]
  · intro h1 h2 h3 h4
    simp [AttributeBuilder.build_well_log_data, h1, h2, h3, h4]
  · intro hW hU
    have hU2 : AttributeBuilder.get_uwi { well := las.well, curves := [] } = none := hU
    simp [AttributeBuilder.build_wellbore_data, LASFile.wellWELLvalue, hW, hU2,
      AttributeBuilder.build_name_aliases]

/-- C3 witness: blank id, zero curves, blank first mnemonic, unset
partition id, and the zero-curve wellbore success, each at a concrete
input. -/
theorem claim_C3_witness :
    AttributeBuilder.build_well_log_data lasWellA (Configuration.init cfgFullData) "" =
      .error (.valueError "Wellbore ID is required") ∧
    AttributeBuilder.build_well_log_data lasNoCurves (Configuration.init cfgFullData) "wb-1" =
      .error (.valueError "Failed to extract reference curve ID from LAS file.") ∧
    AttributeBuilder.build_well_log_data lasBlankMnemonic (Configuration.init cfgFullData) "wb-1" =
      .error (.valueError "Failed to extract reference curve ID from LAS file.") ∧
    AttributeBuilder.build_well_log_data lasWellA cfgAllUnset "wb-1" =
      .error (.valueError "Config missing \x27data_partition_id\x27 for building curves") ∧
    AttributeBuilder.build_wellbore_data { well := lasNoCurves.well, curves := [] }
        (Configuration.init cfgFullData) =
      .ok { FacilityName := "Well-A", NameAliases := [] } := by
  refine ⟨?_, ?_, ?_, ?_, ?_⟩
  · exact (claim_C3_well_log_data_errors lasWellA (Configuration.init cfgFullData) "wb-1"
      { mnemonic := "DEPT", unit := "M" } [{ mnemonic := "GR", unit := "" }]
      { value := "Well-A" }).1
  · exact (claim_C3_well_log_data_errors lasNoCurves (Configuration.init cfgFullData) "wb-1"
      { mnemonic := "DEPT", unit := "M" } [] { value := "Well-A" }).2.1
      (by decide) rfl
  · exact (claim_C3_well_log_data_errors lasBlankMnemonic (Configuration.init cfgFullData) "wb-1"
      { mnemonic := "", unit := "M" } [] { value := "Well-A" }).2.2.1
      (by decide) rfl rfl
  · exact (claim_C3_well_log_data_errors lasWellA cfgAllUnset "wb-1"
      { mnemonic := "DEPT", unit := "M" } [{ mnemonic := "GR", unit := "" }]
      { value := "Well-A" }).2.2.2.1 (by decide) rfl (by decide) rfl
  · exact (claim_C3_well_log_data_errors lasNoCurves (Configuration.init cfgFullData) "wb-1"
      { mnemonic := "DEPT", unit := "M" } [] { value := "Well-A" }).2.2.2.2.2
      rfl rfl

theorem build_well_log_data_cases (las : LASFile) (cfg : Configuration) (wid : String) :
    (∃ d, AttributeBuilder.build_well_log_data las cfg wid = .ok d) ∨
    AttributeBuilder.build_well_log_data las cfg wid =
      .error (.valueError "Wellbore ID is required") ∨
    AttributeBuilder.build_well_log_data las cfg wid =
      .error (.valueError "Failed to extract reference curve ID from LAS file.") ∨
    AttributeBuilder.build_well_log_data las cfg wid =
      .error (.valueError "Config missing \x27data_partition_id\x27 for building curves") := by
  by_cases h1 : wid = ""
  · right; left
    simp [AttributeBuilder.build_well_log_data, h1]
  · cases h2 : las.curves with
    | nil =>
      right; right; left
      simp [AttributeBuilder.build_well_log_data, h1, h2]
    | cons c0 rest =>
      by_cases h3 : c0.mnemonic = ""
      · right; right; left
        simp [AttributeBuilder.build_well_log_data, h1, h2, h3]
      · cases h4 : cfg.data_partition_id with
        | none =>
          right; right; right
          simp [AttributeBuilder.build_well_log_data, h1, h2, h3, h4]
        | some p =>
          left
          refine ⟨{ ReferenceCurveID := c0.mnemonic,
                    Curves := las.curves.map (AttributeBuilder.curveEntry p),
                    WellboreID := p ++ ":master-data--Wellbore:" ++ wid ++ ":" }, ?_⟩
          simp [AttributeBuilder.build_well_log_data, h1, h2, h3, h4,
            AttributeBuilder.build_curves]

/-- C9.  On the only path on which `build_well_log_data` invokes
`_build_curves` (namely after its own `data_partition_id` check passed), the
partition id handed over is `some`, and `_build_curves` with a `some`
partition id always succeeds — its own missing-partition error branch is
unreachable there.  When the partition id is unset, `build_well_log_data`
fails with its own message before the call, and its result is never
`_build_curves`'s own missing-partition error, on any input. -/
theorem claim_C9_curves_branch_unreachable (las : LASFile) (p : String)
    (cfg : Configuration) (wid : String) (c0 : CurveItem) (rest : List CurveItem)
    (hw : wid ≠ "") (hc : las.curves = c0 :: rest) (hm : c0.mnemonic ≠ "")
    (hpid : cfg.data_partition_id = none) :
    AttributeBuilder.build_curves las (some p) =
      .ok (las.curves.map (AttributeBuilder.curveEntry p)) ∧
    AttributeBuilder.build_well_log_data las cfg wid =
      .error (.valueError "Config missing \x27data_partition_id\x27 for building curves") ∧
    (∀ (las2 : LASFile) (cfg2 : Configuration) (wid2 : String),
      AttributeBuilder.build_well_log_data las2 cfg2 wid2 ≠
        .error (.valueError "Config missing \x27data_partition_id\x27")) := by
  refine ⟨rfl, ?_, ?_⟩
  · simp [AttributeBuilder.build_well_log_data, hw, hc, hm, hpid]
  · intro las2 cfg2 wid2
    rcases build_well_log_data_cases las2 cfg2 wid2 with ⟨d, hd⟩ | hd | hd | hd
    · simp [hd]
    · rw [hd]; decide
    · rw [hd]; decide
    · rw [hd]; decide

/-- C9 witness: partition `"osdu"` makes `_build_curves` succeed on the
scenario document; the all-unset configuration makes `build_well_log_data`
fail with its own config message. -/
theorem claim_C9_witness :
    AttributeBuilder.build_curves lasWellA (some "osdu") =
      .ok (lasWellA.curves.map (AttributeBuilder.curveEntry "osdu")) ∧
    AttributeBuilder.build_well_log_data lasWellA cfgAllUnset "wb-1" =
      .error (.valueError "Config missing \x27data_partition_id\x27 for building curves") ∧
    (∀ (las2 : LASFile) (cfg2 : Configuration) (wid2 : String),
      AttributeBuilder.build_well_log_data las2 cfg2 wid2 ≠
        .error (.valueError "Config missing \x27data_partition_id\x27")) :=
  claim_C9_curves_branch_unreachable lasWellA "osdu" cfgAllUnset "wb-1"
    { mnemonic := "DEPT", unit := "M" } [{ mnemonic := "GR", unit := "" }]
    (by decide) rfl (by decide) rfl

theorem load_las_file_ok_of_WELL (las : LASFile) (item : HeaderItem)
    (hW : las.well.WELL = some item) :
    LasParser.load_las_file (.ok las) = .ok las := by
  simp [LasParser.load_las_file, LasParser.validate_las_file, LASFile.wellWELLvalue, hW]

/-- C1.  For every LAS document that parses and is domain-valid (WELL item
present, nonempty curves with a truthy first mnemonic), every nonblank
wellbore id and every complete configuration, `convert_las_to_osdu_records`
returns a Wellbore record whose id equals the supplied wellbore id exactly
and a WellLog record whose id equals `"<wellboreId>-log"`; and the Wellbore
mapper itself never assigns an id (every record it returns has id `None` —
the id is set by the service after construction). -/
theorem claim_C1_convert_ids
    (las : LASFile) (cd : ConfigData) (wid : String) (item : HeaderItem)
    (c0 : CurveItem) (rest : List CurveItem) (vs os ts cs : List String) (st p : String)
    (hW : las.well.WELL = some item)
    (hcur : las.curves = c0 :: rest) (hm : c0.mnemonic ≠ "") (hwid : wid ≠ "")
    (hv : cd.data_default_viewers = some vs) (ho : cd.data_default_owners = some os)
    (ht : cd.legal_tags = some ts) (hcc : cd.legal_relevant_data_countries = some cs)
    (hst : cd.legal_status = some st) (hp : cd.data_partition_id = some p) :
    (∃ r, convert_las_to_osdu_records (.ok las) wid cd = .ok r ∧
      r.wellbore_record.id = some wid ∧
      r.welllog_record.id = some (wid ++ "-log")) ∧
    (∀ (m : LasToRecordMapper) (rec : Record),
      m.map_to_wellbore_record = .ok rec → rec.id = none) := by
  constructor
  · set cfg := Configuration.init cd with hcfg
    have hcfgp : cfg.data_partition_id = some p := hp
    have hacl : AttributeBuilder.build_acl cfg = .ok { viewers := vs, owners := os } := by
      simp [AttributeBuilder.build_acl, hcfg, Configuration.init, hv, ho]
    have hlegal : AttributeBuilder.build_legal cfg =
        .ok { legaltags := ts, otherRelevantDataCountries := cs, status := st } := by
      simp [AttributeBuilder.build_legal, hcfg, Configuration.init, ht, hcc, hst]
    obtain ⟨dwb, hdwb, _⟩ := build_wellbore_data_ok_of_partition las cfg item p hW hcfgp
    have hdwl : AttributeBuilder.build_well_log_data las cfg wid =
        .ok { ReferenceCurveID := c0.mnemonic,
              Curves := las.curves.map (AttributeBuilder.curveEntry p),
              WellboreID := p ++ ":master-data--Wellbore:" ++ wid ++ ":" } := by
      simp [AttributeBuilder.build_well_log_data, hwid, hcur, hm, hcfgp,
        AttributeBuilder.build_curves]
    have hbody : convert_body (.ok las) wid cd =
        .ok { wellbore_record :=
                { kind := "osdu:wks:master-data--Wellbore:1.0.0",
                  acl := { viewers := vs, owners := os },
                  legal := { legaltags := ts, otherRelevantDataCountries := cs, status := st },
                  data := .wellbore dwb, id := some wid },
              welllog_record :=
                { kind := "osdu:wks:work-product-component--WellLog:1.0.0",
                  acl := { viewers := vs, owners := os },
                  legal := { legaltags := ts, otherRelevantDataCountries := cs, status := st },
                  data := .wellLog
                    { ReferenceCurveID := c0.mnemonic,
                      Curves := las.curves.map (AttributeBuilder.curveEntry p),
                      WellboreID := p ++ ":master-data--Wellbore:" ++ wid ++ ":" },
                  id := some (wid ++ "-log") } } := by
      simp [convert_body, load_las_file_ok_of_WELL las item hW, LasToRecordMapper.init,
        LasToRecordMapper.map_to_wellbore_record, LasToRecordMapper.map_to_well_log_record,
        ← hcfg, hacl, hlegal, hdwb, hdwl]
    have hconv : convert_las_to_osdu_records (.ok las) wid cd =
        convert_body (.ok las) wid cd := by
      simp [convert_las_to_osdu_records, hbody]
    exact ⟨_, hconv.trans hbody, rfl, rfl⟩
  · intro m rec h
    cases hA : AttributeBuilder.build_acl m.config with
    | error eA => simp [LasToRecordMapper.map_to_wellbore_record, hA] at h
    | ok a =>
      cases hL : AttributeBuilder.build_legal m.config with
      | error eL => simp [LasToRecordMapper.map_to_wellbore_record, hA, hL] at h
      | ok l =>
        cases hD : AttributeBuilder.build_wellbore_data m.las m.config with
        | error eD => simp [LasToRecordMapper.map_to_wellbore_record, hA, hL, hD] at h
        | ok d =>
          simp [LasToRecordMapper.map_to_wellbore_record, hA, hL, hD] at h
          rw [← h]

/-- C1 witness: the spec scenario (document `Well-A`, complete configuration
with partition `"osdu"`, wellbore id `"wb-1"`). -/
theorem claim_C1_witness :
    (∃ r, convert_las_to_osdu_records (.ok lasWellA) "wb-1" cfgFullData = .ok r ∧
      r.wellbore_record.id = some "wb-1" ∧
      r.welllog_record.id = some ("wb-1" ++ "-log")) ∧
    (∀ (m : LasToRecordMapper) (rec : Record),
      m.map_to_wellbore_record = .ok rec → rec.id = none) :=
  claim_C1_convert_ids lasWellA cfgFullData "wb-1" { value := "Well-A" }
    { mnemonic := "DEPT", unit := "M" } [{ mnemonic := "GR", unit := "" }]
    ["viewers@osdu"] ["owners@osdu"] ["osdu-public-usa-dataset"] ["US"] "compliant" "osdu"
    rfl rfl (by decide) (by decide) rfl rfl rfl rfl rfl rfl

theorem load_las_file_ok_inv (l : Except PyError LASFile) (las : LASFile)
    (h : LasParser.load_las_file l = .ok las) : l = .ok las := by
  cases l with
  | error e => simp [LasParser.load_las_file] at h
  | ok x =>
    cases hW : x.well.WELL with
    | none =>
      simp [LasParser.load_las_file, LasParser.validate_las_file,
        LASFile.wellWELLvalue, hW] at h
    | some item =>
      simp [LasParser.load_las_file, LasParser.validate_las_file,
        LASFile.wellWELLvalue, hW] at h
      rw [h]

/-- C6.  The service propagates `ValueError` (the spec's ValidationError and
ConfigError), `TypeError` and `FileValidationError` from nested calls
unchanged; any other failure of the body is wrapped into a generic error
carrying the original message; and it never returns a partial result — an
`ok` outcome means the Wellbore record is exactly the fully mapped record
with the service-assigned id, and the WellLog record is exactly the fully
mapped record. -/
theorem claim_C6_convert_error_policy (lasioRead : Except PyError LASFile)
    (wid : String) (cd : ConfigData) (r : ConvertResult) (e : PyError) :
    (convert_body lasioRead wid cd = .error e → e.passthrough = true →
      convert_las_to_osdu_records lasioRead wid cd = .error e) ∧
    (convert_body lasioRead wid cd = .error e → e.passthrough = false →
      convert_las_to_osdu_records lasioRead wid cd =
        .error (.otherError ("An unexpected error occurred: " ++ e.message))) ∧
    (convert_las_to_osdu_records lasioRead wid cd = .ok r →
      ∃ las rec0,
        lasioRead = .ok las ∧
        (LasToRecordMapper.mk las (Configuration.init cd)).map_to_wellbore_record =
          .ok rec0 ∧
        r.wellbore_record = { rec0 with id := some wid } ∧
        (LasToRecordMapper.mk las (Configuration.init cd)).map_to_well_log_record wid =
          .ok r.welllog_record) := by
  refine ⟨?_, ?_, ?_⟩
  · intro hb hp
    simp [convert_las_to_osdu_records, hb, hp]
  · intro hb hp
    simp [convert_las_to_osdu_records, hb, hp]
  · intro h
    have hbody : convert_body lasioRead wid cd = .ok r := by
      cases hbody : convert_body lasioRead wid cd with
      | ok result =>
        simp [convert_las_to_osdu_records, hbody] at h
        rw [h]
      | error e2 =>
        by_cases hp2 : e2.passthrough <;>
          simp [convert_las_to_osdu_records, hbody, hp2] at h
    clear h
    cases hload : LasParser.load_las_file lasioRead with
    | error e3 => simp [convert_body, hload] at hbody
    | ok las =>
      have hlas : lasioRead = .ok las := load_las_file_ok_inv lasioRead las hload
      cases hwb : (LasToRecordMapper.mk las (Configuration.init cd)).map_to_wellbore_record with
      | error e4 =>
        simp [convert_body, hload, LasToRecordMapper.init, hwb] at hbody
      | ok rec0 =>
        cases hwl : (LasToRecordMapper.mk las
            (Configuration.init cd)).map_to_well_log_record wid with
        | error e5 =>
          simp [convert_body, hload, LasToRecordMapper.init, hwb, hwl] at hbody
        | ok wl =>
          simp [convert_body, hload, LasToRecordMapper.init, hwb, hwl] at hbody
          refine ⟨las, rec0, hlas, hwb, ?_, ?_⟩
          · rw [← hbody]
          · rw [← hbody, hwl]


/-- C6 witness: the three branches at concrete inputs — a `ValueError`
(missing ACL config) passed through unchanged, an `AttributeError` (absent
WELL) wrapped into the generic message, and a fully successful conversion
decomposed into its two fully mapped records. -/
theorem claim_C6_witness :
    convert_las_to_osdu_records (.ok lasWellA) "wb-1" cfgAllUnsetData =
      .error (.valueError
        "Config missing \x27data_default_viewers\x27 or \x27data_default_owners\x27") ∧
    convert_las_to_osdu_records (.ok lasNoWELL) "wb-1" cfgFullData =
      .error (.otherError ("An unexpected error occurred: " ++
        (PyError.attributeError "SectionItems object has no attribute WELL").message)) ∧
    (∃ las rec0,
      (.ok lasWellA : Except PyError LASFile) = .ok las ∧
      (LasToRecordMapper.mk las (Configuration.init cfgFullData)).map_to_wellbore_record =
        .ok rec0 ∧
      convResultWellA.wellbore_record = { rec0 with id := some "wb-1" } ∧
      (LasToRecordMapper.mk las (Configuration.init cfgFullData)).map_to_well_log_record
          "wb-1" = .ok convResultWellA.welllog_record) := by
  refine ⟨?_, ?_, ?_⟩
  · exact (claim_C6_convert_error_policy (.ok lasWellA) "wb-1" cfgAllUnsetData
      convResultDummy
      (.valueError
        "Config missing \x27data_default_viewers\x27 or \x27data_default_owners\x27")).1
      (by decide) rfl
  · exact (claim_C6_convert_error_policy (.ok lasNoWELL) "wb-1" cfgFullData
      convResultDummy
      (.attributeError "SectionItems object has no attribute WELL")).2.1
      (by decide) rfl
  · exact (claim_C6_convert_error_policy (.ok lasWellA) "wb-1" cfgFullData
      convResultWellA (.valueError "")).2.2 (by decide)

/-- C8 counterexample.  Reordering the three sub-builder calls is
observable when more than one of them would fail: on a configuration with
every field unset, the source order (ACL first) reports the ACL config
error, while the Legal-first order reports the legal config error — a
different outcome on failure, refuting the claim as stated. -/
theorem claim_C8_counterexample :
    map_to_wellbore_record_ordered (LasToRecordMapper.mk lasWellA cfgAllUnset) 1 0 2 ≠
      (LasToRecordMapper.mk lasWellA cfgAllUnset).map_to_wellbore_record ∧
    map_to_wellbore_record_ordered (LasToRecordMapper.mk lasWellA cfgAllUnset) 1 0 2 =
      .error (.valueError
        "Config missing \x27legal_tags\x27, \x27legal_relevant_data_countries\x27, or \x27legal_status\x27") ∧
    (LasToRecordMapper.mk lasWellA cfgAllUnset).map_to_wellbore_record =
      .error (.valueError
        "Config missing \x27data_default_viewers\x27 or \x27data_default_owners\x27") := by
  refine ⟨by decide, by decide, by decide⟩

theorem except_isOk_iff {ε α : Type} (x : Except ε α) : x.isOk = true ↔ ∃ a, x = .ok a := by
  cases x <;> simp [Except.isOk, Except.toBool]

theorem fin3_cover (i j k x : Fin 3) (hij : i ≠ j) (hik : i ≠ k) (hjk : j ≠ k) :
    x = i ∨ x = j ∨ x = k := by
  revert hij hik hjk
  revert i j k x
  decide

theorem ordered_wb_err_of_block (m : LasToRecordMapper) (i j k f : Fin 3) (e : PyError)
    (hf : wellboreBlockRun m f = .error e) (hcov : f = i ∨ f = j ∨ f = k) :
    ∃ e2, map_to_wellbore_record_ordered m i j k = .error e2 := by
  cases hbi : wellboreBlockRun m i with
  | error e1 => exact ⟨e1, by simp [map_to_wellbore_record_ordered, hbi]⟩
  | ok u =>
    cases u
    cases hbj : wellboreBlockRun m j with
    | error e1 => exact ⟨e1, by simp [map_to_wellbore_record_ordered, hbi, hbj]⟩
    | ok u2 =>
      cases u2
      cases hbk : wellboreBlockRun m k with
      | error e1 => exact ⟨e1, by simp [map_to_wellbore_record_ordered, hbi, hbj, hbk]⟩
      | ok u3 =>
        rcases hcov with h | h | h <;> subst h <;> simp_all

theorem ordered_wl_err_of_block (m : LasToRecordMapper) (wid : String) (i j k f : Fin 3)
    (e : PyError) (hf : wellLogBlockRun m wid f = .error e) (hcov : f = i ∨ f = j ∨ f = k) :
    ∃ e2, map_to_well_log_record_ordered m wid i j k = .error e2 := by
  cases hbi : wellLogBlockRun m wid i with
  | error e1 => exact ⟨e1, by simp [map_to_well_log_record_ordered, hbi]⟩
  | ok u =>
    cases u
    cases hbj : wellLogBlockRun m wid j with
    | error e1 => exact ⟨e1, by simp [map_to_well_log_record_ordered, hbi, hbj]⟩
    | ok u2 =>
      cases u2
      cases hbk : wellLogBlockRun m wid k with
      | error e1 =>
        exact ⟨e1, by simp [map_to_well_log_record_ordered, hbi, hbj, hbk]⟩
      | ok u3 =>
        rcases hcov with h | h | h <;> subst h <;> simp_all

theorem ordered_wb_ok_iff (m : LasToRecordMapper) (i j k : Fin 3)
    (hij : i ≠ j) (hik : i ≠ k) (hjk : j ≠ k) (r : Record) :
    map_to_wellbore_record_ordered m i j k = .ok r ↔
      m.map_to_wellbore_record = .ok r := by
  rcases hA : AttributeBuilder.build_acl m.config with eA | a
  · have hblock : wellboreBlockRun m 0 = .error eA := by simp [wellboreBlockRun, hA]
    obtain ⟨e2, he2⟩ := ordered_wb_err_of_block m i j k 0 eA hblock
      (fin3_cover i j k 0 hij hik hjk)
    rw [he2]
    simp [LasToRecordMapper.map_to_wellbore_record, hA]
  · rcases hL : AttributeBuilder.build_legal m.config with eL | l
    · have hblock : wellboreBlockRun m 1 = .error eL := by simp [wellboreBlockRun, hA, hL]
      obtain ⟨e2, he2⟩ := ordered_wb_err_of_block m i j k 1 eL hblock
        (fin3_cover i j k 1 hij hik hjk)
      rw [he2]
      simp [LasToRecordMapper.map_to_wellbore_record, hA, hL]
    · rcases hD : AttributeBuilder.build_wellbore_data m.las m.config with eD | d
      · have hblock : wellboreBlockRun m 2 = .error eD := by
          simp [wellboreBlockRun, hA, hL, hD]
        obtain ⟨e2, he2⟩ := ordered_wb_err_of_block m i j k 2 eD hblock
          (fin3_cover i j k 2 hij hik hjk)
        rw [he2]
        simp [LasToRecordMapper.map_to_wellbore_record, hA, hL, hD]
      · have hb : ∀ x : Fin 3, wellboreBlockRun m x = .ok () := by
          intro x
          fin_cases x <;> simp [wellboreBlockRun, hA, hL, hD]
        simp [map_to_wellbore_record_ordered, hb,
          LasToRecordMapper.map_to_wellbore_record, hA, hL, hD]

theorem ordered_wl_ok_iff (m : LasToRecordMapper) (wid : String) (i j k : Fin 3)
    (hij : i ≠ j) (hik : i ≠ k) (hjk : j ≠ k) (r : Record) :
    map_to_well_log_record_ordered m wid i j k = .ok r ↔
      m.map_to_well_log_record wid = .ok r := by
  rcases hA : AttributeBuilder.build_acl m.config with eA | a
  · have hblock : wellLogBlockRun m wid 0 = .error eA := by simp [wellLogBlockRun, hA]
    obtain ⟨e2, he2⟩ := ordered_wl_err_of_block m wid i j k 0 eA hblock
      (fin3_cover i j k 0 hij hik hjk)
    rw [he2]
    simp [LasToRecordMapper.map_to_well_log_record, hA]
  · rcases hL : AttributeBuilder.build_legal m.config with eL | l
    · have hblock : wellLogBlockRun m wid 1 = .error eL := by
        simp [wellLogBlockRun, hA, hL]
      obtain ⟨e2, he2⟩ := ordered_wl_err_of_block m wid i j k 1 eL hblock
        (fin3_cover i j k 1 hij hik hjk)
      rw [he2]
      simp [LasToRecordMapper.map_to_well_log_record, hA, hL]
    · rcases hD : AttributeBuilder.build_well_log_data m.las m.config wid with eD | d
      · have hblock : wellLogBlockRun m wid 2 = .error eD := by
          simp [wellLogBlockRun, hA, hL, hD]
        obtain ⟨e2, he2⟩ := ordered_wl_err_of_block m wid i j k 2 eD hblock
          (fin3_cover i j k 2 hij hik hjk)
        rw [he2]
        simp [LasToRecordMapper.map_to_well_log_record, hA, hL, hD]
      · have hb : ∀ x : Fin 3, wellLogBlockRun m wid x = .ok () := by
          intro x
          fin_cases x <;> simp [wellLogBlockRun, hA, hL, hD]
        simp [map_to_well_log_record_ordered, hb,
          LasToRecordMapper.map_to_well_log_record, hA, hL, hD]

/-- C8 (amended).  For every document, configuration and wellbore id, and
every order of the three sub-builder calls (ACL, Legal, data): the
reordered mapping succeeds exactly when the source-order mapping succeeds,
and on success yields the same record, for the Wellbore and the WellLog
mapping alike.  Only which error is reported can depend on the order, when
more than one sub-builder would fail. -/
theorem claim_C8_amended_order_independence (m : LasToRecordMapper) (wid : String)
    (i j k : Fin 3) (r r2 : Record) (hij : i ≠ j) (hik : i ≠ k) (hjk : j ≠ k) :
    ((map_to_wellbore_record_ordered m i j k).isOk = m.map_to_wellbore_record.isOk) ∧
    (map_to_wellbore_record_ordered m i j k = .ok r ↔ m.map_to_wellbore_record = .ok r) ∧
    ((map_to_well_log_record_ordered m wid i j k).isOk =
      (m.map_to_well_log_record wid).isOk) ∧
    (map_to_well_log_record_ordered m wid i j k = .ok r2 ↔
      m.map_to_well_log_record wid = .ok r2) := by
  refine ⟨?_, ordered_wb_ok_iff m i j k hij hik hjk r, ?_,
    ordered_wl_ok_iff m wid i j k hij hik hjk r2⟩
  · cases hx : map_to_wellbore_record_ordered m i j k with
    | ok rr =>
      have hy := (ordered_wb_ok_iff m i j k hij hik hjk rr).1 hx
      simp [hy, Except.isOk, Except.toBool]
    | error ee =>
      cases hy : m.map_to_wellbore_record with
      | ok rr =>
        have := (ordered_wb_ok_iff m i j k hij hik hjk rr).2 hy
        rw [hx] at this
        exact absurd this (by simp)
      | error ee2 => simp [Except.isOk, Except.toBool]
  · cases hx : map_to_well_log_record_ordered m wid i j k with
    | ok rr =>
      have hy := (ordered_wl_ok_iff m wid i j k hij hik hjk rr).1 hx
      simp [hy, Except.isOk, Except.toBool]
    | error ee =>
      cases hy : m.map_to_well_log_record wid with
      | ok rr =>
        have := (ordered_wl_ok_iff m wid i j k hij hik hjk rr).2 hy
        rw [hx] at this
        exact absurd this (by simp)
      | error ee2 => simp [Except.isOk, Except.toBool]

/-- C8 witness: the Legal-ACL-data order against the source order on the
fully valid scenario inputs. -/
theorem claim_C8_witness :
    ((map_to_wellbore_record_ordered
        (LasToRecordMapper.mk lasWellA (Configuration.init cfgFullData)) 1 0 2).isOk =
      (LasToRecordMapper.mk lasWellA
        (Configuration.init cfgFullData)).map_to_wellbore_record.isOk) ∧
    (map_to_wellbore_record_ordered
        (LasToRecordMapper.mk lasWellA (Configuration.init cfgFullData)) 1 0 2 =
        .ok convResultWellA.wellbore_record ↔
      (LasToRecordMapper.mk lasWellA
        (Configuration.init cfgFullData)).map_to_wellbore_record =
        .ok convResultWellA.wellbore_record) ∧
    ((map_to_well_log_record_ordered
        (LasToRecordMapper.mk lasWellA (Configuration.init cfgFullData)) "wb-1" 1 0 2).isOk =
      ((LasToRecordMapper.mk lasWellA
        (Configuration.init cfgFullData)).map_to_well_log_record "wb-1").isOk) ∧
    (map_to_well_log_record_ordered
        (LasToRecordMapper.mk lasWellA (Configuration.init cfgFullData)) "wb-1" 1 0 2 =
        .ok convResultWellA.welllog_record ↔
      (LasToRecordMapper.mk lasWellA
        (Configuration.init cfgFullData)).map_to_well_log_record "wb-1" =
        .ok convResultWellA.welllog_record) :=
  claim_C8_amended_order_independence
    (LasToRecordMapper.mk lasWellA (Configuration.init cfgFullData)) "wb-1" 1 0 2
    convResultWellA.wellbore_record convResultWellA.welllog_record
    (by decide) (by decide) (by decide)
